import Mathlib

/-
Verification of the document ingestion pipeline of the tutorials repository.

The embedding models the helper functions of the notebook
"3. Data Setup - Setting Up the Document Ingestion Pipeline.ipynb"
(ingest_document, ingest_all_documents, get_successful_document_ids,
check_status_of_ingestion, check_files_status, get_successful_dataset_ids)
and the small store-id helper createStoreId.

Conventions of the embedding:
- Python exceptions are values of the inductive type PyErr; a fallible
  computation returns Except PyErr.
- The tenacity decorator
  retry(stop=stop_after_attempt(3),
        wait=wait_exponential(multiplier=1, min=2, max=10),
        retry=retry_if_exception_type(requests.RequestException))
  is embedded by retryCall, which records the result, the number of
  attempts performed and the list of backoff waits actually slept.
  In tenacity, after attempt number k fails with a retryable exception
  and the stop condition does not yet hold, the sleep length is
  max(min_delay, min(max_delay, multiplier * 2 ^ k)); when the stop
  condition holds the last exception is wrapped in a RetryError.
  A non-retryable exception is re-raised unchanged after one attempt.
- The network and filesystem are an environment parameter: a function
  from the attempt number to the response observed on that attempt.
- A pandas DataFrame is a list of rows; boolean filtering keeps the
  original integer index labels, which is modelled by pairing rows
  with their labels where the labels matter (get_successful_dataset_ids).
- The completion order of concurrent.futures.as_completed is an explicit
  list parameter: any permutation of the submitted items.
-/

/-- Python exception values raised by the embedded code. -/
inductive PyErr where
  | requestException (msg : String)
  | fileNotFound (path : String)
  | assertionError
  | indexError
  | typeError
  | keyError (label : Nat)
  | nameError (var : String)
  | retryError (last : PyErr)
  deriving Repr, DecidableEq

/-- The classifier retry_if_exception_type(requests.RequestException):
true exactly for HTTP-transport exceptions. -/
def PyErr.isRequestException : PyErr → Bool
  | PyErr.requestException _ => true
  | _ => false

/-- Rendering str(e) of an exception, used when an error is stored in a report row. -/
def pyStr : PyErr → String
  | PyErr.requestException m => m
  | PyErr.fileNotFound p => "No such file or directory: " ++ p
  | PyErr.assertionError => "AssertionError"
  | PyErr.indexError => "list index out of range"
  | PyErr.keyError n => "KeyError: " ++ toString n
  | PyErr.typeError => "TypeError"
  | PyErr.nameError v => "name " ++ v ++ " is not defined"
  | PyErr.retryError e => "RetryError: " ++ pyStr e

/-- tenacity wait_exponential(multiplier, min, max): the sleep performed after
attemptNumber attempts have completed, namely
max(max(0, min), min(multiplier * 2 ^ attemptNumber, max)). -/
def waitExponential (multiplier minDelay maxDelay attemptNumber : Nat) : Nat :=
  max minDelay (min maxDelay (multiplier * 2 ^ attemptNumber))

/-- Observable trace of one retry-wrapped call: the final result, the number of
attempts performed, and the backoff waits slept between attempts, in order. -/
structure RetryTrace (α : Type) where
  result : Except PyErr α
  attempts : Nat
  waits : List Nat
  deriving Repr

/-- The decorator retry(stop=stop_after_attempt(3),
wait=wait_exponential(multiplier=1, min=2, max=10), retry=retry_if_exception_type(...))
applied to a fallible operation. op k is the outcome of the k-th attempt
(attempts are numbered from 1). A successful attempt returns at once; a
failure with retryIf false is re-raised at once; a retryable failure sleeps
waitExponential 1 2 10 k and tries again, and after the third attempt the
last exception is wrapped in a RetryError instead of sleeping again. -/
def retryCall {α : Type} (retryIf : PyErr → Bool) (op : Nat → Except PyErr α) :
    RetryTrace α :=
  match op 1 with
  | Except.ok a => ⟨Except.ok a, 1, []⟩
  | Except.error e1 =>
    if retryIf e1 then
      match op 2 with
      | Except.ok a => ⟨Except.ok a, 2, [waitExponential 1 2 10 1]⟩
      | Except.error e2 =>
        if retryIf e2 then
          match op 3 with
          | Except.ok a =>
            ⟨Except.ok a, 3, [waitExponential 1 2 10 1, waitExponential 1 2 10 2]⟩
          | Except.error e3 =>
            if retryIf e3 then
              ⟨Except.error (PyErr.retryError e3), 3,
                [waitExponential 1 2 10 1, waitExponential 1 2 10 2]⟩
            else
              ⟨Except.error e3, 3,
                [waitExponential 1 2 10 1, waitExponential 1 2 10 2]⟩
        else ⟨Except.error e2, 2, [waitExponential 1 2 10 1]⟩
    else ⟨Except.error e1, 1, []⟩

/-- What one upload attempt of ingest_document observes: either open() fails on
the local path, or the POST to the stage returns a status code and, when the
code is a success code, a body whose fileId field is given. -/
inductive UploadResp where
  | noFile
  | resp (code : Nat) (fileId : String)
  deriving Repr, DecidableEq

/-- The dict returned by ingest_document on success. -/
structure IngestRow where
  file_id : String
  status : String
  error_type : Option String
  error_message : Option String
  deriving Repr, DecidableEq

/-- One attempt of the body of ingest_document: open the local file
(FileNotFoundError when absent), POST, response.raise_for_status()
(requests.HTTPError, a RequestException, when the code is 400 or above),
then build the success dict from the fileId of the response body. -/
def ingest_document_once (document_path : String) (r : UploadResp) :
    Except PyErr IngestRow :=
  match r with
  | UploadResp.noFile => Except.error (PyErr.fileNotFound document_path)
  | UploadResp.resp code fid =>
    if 400 ≤ code then Except.error (PyErr.requestException (toString code))
    else Except.ok ⟨fid, "Success", none, none⟩

/-- ingest_document: the upload attempt wrapped in the retry decorator.
env k is what attempt k observes. -/
def ingest_document (document_path : String) (env : Nat → UploadResp) :
    RetryTrace IngestRow :=
  retryCall PyErr.isRequestException
    (fun k => ingest_document_once document_path (env k))

/-- One row of the Phase-1 report built by ingest_all_documents. The DataFrame
union of the success-row keys and the failure-row keys gives the columns
file_path, file_id, status, error_type, error_message, error; a key absent
from a row is a null cell, modelled by none. -/
structure Phase1Row where
  file_path : String
  file_id : Option String
  status : String
  error_type : Option String
  error_message : Option String
  error : Option String
  deriving Repr, DecidableEq

/-- ingest_all_documents: submit ingest_document for every file of the
directory listing and append one row per completed future, catching any
exception of future.result() into a failure row. files is the listing in
completion order (as_completed yields each submitted future exactly once);
outcome gives the result of the retried upload of each file. The function
always returns a full report: it is total, no exception escapes the loop. -/
def ingest_all_documents (directory_path : String) (files : List String)
    (outcome : String → Except PyErr IngestRow) : List Phase1Row :=
  files.map (fun file =>
    let file_path := directory_path ++ "/" ++ file
    match outcome file with
    | Except.ok r =>
      ⟨file_path, some r.file_id, r.status, r.error_type, r.error_message, none⟩
    | Except.error e =>
      ⟨file_path, none, "Ingestion Failed", none, none, some (pyStr e)⟩)

/-- get_successful_document_ids: the file_id column of the rows whose status
is Success. -/
def get_successful_document_ids (df : List Phase1Row) : List (Option String) :=
  (df.filter (fun r => r.status == "Success")).map (fun r => r.file_id)

/-- A JSON object with string values, as stored in the output field of a run. -/
abbrev JDict := List (String × String)

/-- dict.get on a JSON object. -/
def dictGet (d : JDict) (k : String) : Option String :=
  (d.find? (fun p => p.1 == k)).map (fun p => p.2)

/-- One run object of the page returned by the runs endpoint. output is none
when the run has no output key (run.get with default). -/
structure Run where
  runId : String
  status : String
  output : Option JDict
  errors : Option String
  deriving Repr, DecidableEq

/-- What one attempt of check_status_of_ingestion observes: the HTTP status
code of the GET and the page body (its total field and its runs list). -/
inductive StatusResp where
  | resp (code : Nat) (total : Nat) (runs : List Run)
  deriving Repr, DecidableEq

/-- One attempt of the body of check_status_of_ingestion:
response.raise_for_status() raises requests.HTTPError (a RequestException)
when the code is 400 or above; then the line assert page["total"] > 0 raises
AssertionError on an empty page; then page["runs"][0] is returned
(IndexError when the list is empty despite a positive total). -/
def check_status_of_ingestion_once (r : StatusResp) : Except PyErr Run :=
  match r with
  | StatusResp.resp code total runs =>
    if 400 ≤ code then Except.error (PyErr.requestException (toString code))
    else if 0 < total then
      match runs with
      | rn :: _ => Except.ok rn
      | [] => Except.error PyErr.indexError
    else Except.error PyErr.assertionError

/-- check_status_of_ingestion: the status query wrapped in the same retry
decorator as ingest_document. env k is what attempt k observes. -/
def check_status_of_ingestion (env : Nat → StatusResp) : RetryTrace Run :=
  retryCall PyErr.isRequestException
    (fun k => check_status_of_ingestion_once (env k))

/-- One row appended to status_results inside check_files_status. A failure
row has no run_id and no output key; absent keys are null cells. -/
structure StatusRow where
  file_id : Option String
  run_id : Option String
  status : String
  output : Option JDict
  error : Option String
  deriving Repr, DecidableEq

/-- The as_completed loop of check_files_status over the polled futures, in
completion order. On a successful future a full row is appended and the local
variable run now holds that run. On a raising future the except handler
builds a row whose status field reads the variable run, which still holds the
value of a previous iteration; when no previous iteration assigned run, the
handler itself raises NameError and the whole call aborts. -/
def checkLoop : Option Run → List (Option String × Except PyErr Run) →
    Except PyErr (List StatusRow)
  | _, [] => Except.ok []
  | lastRun, (fid, res) :: rest =>
    match res with
    | Except.ok run =>
      match checkLoop (some run) rest with
      | Except.ok rows =>
        Except.ok
          (⟨fid, some run.runId, run.status, some (run.output.getD []), run.errors⟩
            :: rows)
      | Except.error e => Except.error e
    | Except.error e =>
      match lastRun with
      | none => Except.error (PyErr.nameError "run")
      | some run =>
        match checkLoop (some run) rest with
        | Except.ok rows =>
          Except.ok (⟨fid, none, run.status, none, some (pyStr e)⟩ :: rows)
        | Except.error e2 => Except.error e2

/-- One row of the merged report returned by check_files_status. The left
frame contributes file_path, file_id, status_ingestion, error_type,
error_message, error_ingestion (status and error carry the suffix
_ingestion because both frames have such a column); the right frame
contributes run_id, status, output, error, all null when the left row found
no match. -/
structure MergedRow where
  file_path : String
  file_id : Option String
  status_ingestion : String
  error_type : Option String
  error_message : Option String
  error_ingestion : Option String
  run_id : Option String
  status : Option String
  output : Option JDict
  error : Option String
  deriving Repr, DecidableEq

/-- A left row joined with a matching right row. -/
def mergeRow (l : Phase1Row) (r : StatusRow) : MergedRow :=
  ⟨l.file_path, l.file_id, l.status, l.error_type, l.error_message, l.error,
    r.run_id, some r.status, r.output, r.error⟩

/-- A left row with no match: the right columns are null. -/
def nullRow (l : Phase1Row) : MergedRow :=
  ⟨l.file_path, l.file_id, l.status, l.error_type, l.error_message, l.error,
    none, none, none, none⟩

/-- df.merge(status_df, on="file_id", how="left", suffixes=("_ingestion", "")):
every left row appears; a left row with matching right rows appears once per
match, and a left row with no match appears once with null right columns. -/
def leftMerge (df : List Phase1Row) (rows : List StatusRow) : List MergedRow :=
  (df.map (fun l =>
    match rows.filter (fun r => r.file_id == l.file_id) with
    | [] => [nullRow l]
    | ms => ms.map (mergeRow l))).flatten

/-- check_files_status: poll check_status_of_ingestion for every file_id of
get_successful_document_ids df through the worker pool, run the as_completed
loop over the completions, and left-merge the status rows onto df.
poll fid is the result of the retried status query for fid; order is the
completion order of the submitted poll targets (a permutation of
get_successful_document_ids df). When the loop raises, the exception
propagates out of the function and no report is returned. -/
def check_files_status (df : List Phase1Row)
    (poll : Option String → Except PyErr Run) (order : List (Option String)) :
    Except PyErr (List MergedRow) :=
  match checkLoop none (order.map (fun fid => (fid, poll fid))) with
  | Except.ok statusRows => Except.ok (leftMerge df statusRows)
  | Except.error e => Except.error e

/-- A pandas DataFrame or Series as a list of index labels paired with row
values: boolean filtering keeps the original labels. -/
def labeledRows (df : List MergedRow) : List (Nat × MergedRow) :=
  df.enum

/-- status_df[status_df["status"] == s]: keeps the rows (with their original
labels) whose status cell equals s. -/
def filterStatus (df : List (Nat × MergedRow)) (s : String) :
    List (Nat × MergedRow) :=
  df.filter (fun p => p.2.status == some s)

/-- Series indexing series[i] on an integer-labelled Series: label-based
lookup, KeyError when no row carries the label. -/
def seriesGet {α : Type} (s : List (Nat × α)) (label : Nat) : Except PyErr α :=
  match s.find? (fun p => p.1 == label) with
  | some p => Except.ok p.2
  | none => Except.error (PyErr.keyError label)

/-- json.loads applied to an output cell: a null cell raises TypeError, a
JSON-string cell parses back to the object it encodes. -/
def jsonLoadsCell : Option JDict → Except PyErr JDict
  | none => Except.error PyErr.typeError
  | some d => Except.ok d

/-- The loop of get_successful_dataset_ids: for i in range(len(df)), append
json.loads(df["output"][i]).get("datasetId"). Any exception aborts the call. -/
def datasetIdsLoop (col : List (Nat × Option JDict)) :
    List Nat → Except PyErr (List (Option String))
  | [] => Except.ok []
  | i :: rest =>
    match seriesGet col i with
    | Except.error e => Except.error e
    | Except.ok cell =>
      match jsonLoadsCell cell with
      | Except.error e => Except.error e
      | Except.ok d =>
        match datasetIdsLoop col rest with
        | Except.ok ids => Except.ok (dictGet d "datasetId" :: ids)
        | Except.error e => Except.error e

/-- get_successful_dataset_ids: iterate positions 0, ..., len(df) - 1 and look
each position up as a label in the output column of the given frame. -/
def get_successful_dataset_ids (df : List (Nat × MergedRow)) :
    Except PyErr (List (Option String)) :=
  datasetIdsLoop (df.map (fun p => (p.1, p.2.output))) (List.range df.length)

/-- The fixed namespace id of the store-id helper. -/
def APPLICATION_STORES_NAMESPACE : String :=
  "98215f16-4645-404f-8907-9469d95439e2"

/-- createStoreId with an explicit namespace argument: the namespace, a
hyphen, and the store name, concatenated in that order. -/
def createStoreId (storeName : String) (ns : String) : String :=
  ns ++ "-" ++ storeName

/-- createStoreId called with the namespace argument left at its default. -/
def createStoreIdDefault (storeName : String) : String :=
  createStoreId storeName APPLICATION_STORES_NAMESPACE

/-- Claim C1: for every batch of N input files the batch runner produces
exactly one Outcome per submitted WorkItem and no per-item error propagates
out of the batch driver, in both ingest_all_documents and check_files_status.
The first conjunct proves the property for ingest_all_documents (one row per
file, and the function is total, so no exception escapes). The second
conjunct evaluates check_files_status at a batch whose first completed poll
raises: the except handler reads the unbound variable run, NameError
propagates out of the driver, and no report is returned — refuting the claim
for check_files_status. -/
theorem claim_C1_batch_isolation :
    (∀ (dp : String) (files : List String)
        (outcome : String → Except PyErr IngestRow),
      (ingest_all_documents dp files outcome).length = files.length) ∧
    check_files_status
        [⟨"files_to_upload/a.txt", some "id1", "Success", none, none, none⟩]
        (fun _ => Except.error PyErr.assertionError) [some "id1"] =
      Except.error (PyErr.nameError "run") := by
  constructor
  · intro dp files outcome
    simp [ingest_all_documents]
  · rfl

/-- Claim C2: in the phase-2 error path of check_files_status, the Failure
record reads its status from the variable run left over from a previous loop
iteration (first conjunct: the row recorded for the failing fid2 carries
run1.status, the status of the previously completed run), and when the first
completed item fails, run is unbound and the handler itself raises NameError
(second conjunct). -/
theorem claim_C2_stale_run_variable
    (df : List Phase1Row) (poll : Option String → Except PyErr Run)
    (fid1 fid2 : Option String) (restOrder : List (Option String))
    (run1 : Run) (e : PyErr)
    (h1 : poll fid1 = Except.ok run1) (h2 : poll fid2 = Except.error e) :
    check_files_status df poll [fid1, fid2] =
      Except.ok (leftMerge df
        [⟨fid1, some run1.runId, run1.status, some (run1.output.getD []),
            run1.errors⟩,
          ⟨fid2, none, run1.status, none, some (pyStr e)⟩]) ∧
    check_files_status df poll (fid2 :: restOrder) =
      Except.error (PyErr.nameError "run") := by
  constructor
  · simp [check_files_status, checkLoop, h1, h2]
  · simp [check_files_status, checkLoop, h2]

def runW2 : Run := ⟨"rw", "completed", none, none⟩

def pollW2 : Option String → Except PyErr Run := fun fid =>
  if fid == some "w1" then Except.ok runW2 else Except.error PyErr.assertionError

/-- Witness for claim C2 at a concrete two-item batch. -/
theorem claim_C2_witness :
    (check_files_status [] pollW2 [some "w1", some "w2"] =
      Except.ok (leftMerge []
        [⟨some "w1", some runW2.runId, runW2.status, some (runW2.output.getD []),
            runW2.errors⟩,
          ⟨some "w2", none, runW2.status, none, some (pyStr PyErr.assertionError)⟩]) ∧
    check_files_status [] pollW2 [some "w2"] =
      Except.error (PyErr.nameError "run")) :=
  claim_C2_stale_run_variable [] pollW2 (some "w1") (some "w2") [] runW2
    PyErr.assertionError rfl rfl

/-- Claim C3: both retry-wrapped operations return the first successful
attempt immediately with no further attempts, and when every attempt raises a
transient failure the operation is attempted exactly 3 times and the final
transient failure is surfaced (wrapped in a RetryError) to the caller. The
first two conjuncts identify ingest_document and check_status_of_ingestion
with the retry wrapper applied to their single-attempt bodies; the remaining
conjuncts prove the retry behaviour for any wrapped operation. -/
theorem claim_C3_retry_attempts (path : String) (envU : Nat → UploadResp)
    (envS : Nat → StatusResp) (op : Nat → Except PyErr Run) :
    (ingest_document path envU =
      retryCall PyErr.isRequestException
        (fun k => ingest_document_once path (envU k))) ∧
    (check_status_of_ingestion envS =
      retryCall PyErr.isRequestException
        (fun k => check_status_of_ingestion_once (envS k))) ∧
    (∀ a, op 1 = Except.ok a →
      retryCall PyErr.isRequestException op = ⟨Except.ok a, 1, []⟩) ∧
    (∀ e a, op 1 = Except.error e → PyErr.isRequestException e = true →
      op 2 = Except.ok a →
      (retryCall PyErr.isRequestException op).result = Except.ok a ∧
      (retryCall PyErr.isRequestException op).attempts = 2) ∧
    (∀ e1 e2 e3, op 1 = Except.error e1 → op 2 = Except.error e2 →
      op 3 = Except.error e3 → PyErr.isRequestException e1 = true →
      PyErr.isRequestException e2 = true → PyErr.isRequestException e3 = true →
      (retryCall PyErr.isRequestException op).attempts = 3 ∧
      (retryCall PyErr.isRequestException op).result =
        Except.error (PyErr.retryError e3)) := by
  refine ⟨rfl, rfl, ?_, ?_, ?_⟩
  · intro a h
    simp [retryCall, h]
  · intro e a h1 hte h2
    have hres : retryCall PyErr.isRequestException op =
        ⟨Except.ok a, 2, [waitExponential 1 2 10 1]⟩ := by
      simp [retryCall, h1, hte, h2]
    rw [hres]
    exact ⟨rfl, rfl⟩
  · intro e1 e2 e3 h1 h2 h3 t1 t2 t3
    have hres : retryCall PyErr.isRequestException op =
        ⟨Except.error (PyErr.retryError e3), 3,
          [waitExponential 1 2 10 1, waitExponential 1 2 10 2]⟩ := by
      simp [retryCall, h1, h2, h3, t1, t2, t3]
    rw [hres]
    exact ⟨rfl, rfl⟩

def runC3 : Run := ⟨"r", "completed", none, none⟩

def opC3a : Nat → Except PyErr Run := fun _ => Except.ok runC3

def opC3b : Nat → Except PyErr Run := fun k =>
  if k == 1 then Except.error (PyErr.requestException "500") else Except.ok runC3

def opC3c : Nat → Except PyErr Run := fun _ =>
  Except.error (PyErr.requestException "500")

def envUC3 : Nat → UploadResp := fun _ => UploadResp.resp 200 "f"

def envSC3 : Nat → StatusResp := fun _ => StatusResp.resp 200 1 [runC3]

/-- Witness for claim C3 at concrete operations: one that succeeds at once,
one that succeeds on the second attempt, one that fails transiently on all
three attempts. -/
theorem claim_C3_witness :
    retryCall PyErr.isRequestException opC3a = ⟨Except.ok runC3, 1, []⟩ ∧
    ((retryCall PyErr.isRequestException opC3b).result = Except.ok runC3 ∧
      (retryCall PyErr.isRequestException opC3b).attempts = 2) ∧
    ((retryCall PyErr.isRequestException opC3c).attempts = 3 ∧
      (retryCall PyErr.isRequestException opC3c).result =
        Except.error (PyErr.retryError (PyErr.requestException "500"))) :=
  ⟨(claim_C3_retry_attempts "d" envUC3 envSC3 opC3a).2.2.1 runC3 rfl,
    (claim_C3_retry_attempts "d" envUC3 envSC3 opC3b).2.2.2.1
      (PyErr.requestException "500") runC3 rfl rfl rfl,
    (claim_C3_retry_attempts "d" envUC3 envSC3 opC3c).2.2.2.2
      (PyErr.requestException "500") (PyErr.requestException "500")
      (PyErr.requestException "500") rfl rfl rfl rfl rfl rfl⟩

/-- Claim C4: under the retry policy the wait before each retry equals the
exponential backoff formula clamped to the interval from 2 to 10 time-units,
and in a run failing transiently on attempts 1 and 2 and succeeding on
attempt 3 the two inter-attempt delays are the clamped values 2 and 4, each
at least 2 and at most 10, strictly increasing. The last conjunct states the
closed form of the wait performed before attempt k + 1, namely the product
of the multiplier 1 with 2 raised to the power (k + 1) - 1, clamped to the
interval from 2 to 10. -/
theorem claim_C4_backoff (path : String) (envU : Nat → UploadResp)
    (m1 m2 : String) (r : IngestRow)
    (h1 : ingest_document_once path (envU 1) =
      Except.error (PyErr.requestException m1))
    (h2 : ingest_document_once path (envU 2) =
      Except.error (PyErr.requestException m2))
    (h3 : ingest_document_once path (envU 3) = Except.ok r) :
    (ingest_document path envU).result = Except.ok r ∧
    (ingest_document path envU).attempts = 3 ∧
    (ingest_document path envU).waits =
      [waitExponential 1 2 10 1, waitExponential 1 2 10 2] ∧
    (ingest_document path envU).waits = [2, 4] ∧
    (∀ w ∈ (ingest_document path envU).waits, 2 ≤ w ∧ w ≤ 10) ∧
    List.Chain' (fun a b => a < b) (ingest_document path envU).waits ∧
    (∀ k, waitExponential 1 2 10 k = max 2 (min 10 (1 * 2 ^ (k + 1 - 1)))) := by
  have hw : ingest_document path envU =
      ⟨Except.ok r, 3, [waitExponential 1 2 10 1, waitExponential 1 2 10 2]⟩ := by
    simp [ingest_document, retryCall, h1, h2, h3, PyErr.isRequestException]
  have h24 : (ingest_document path envU).waits = [2, 4] := by
    rw [hw]
    rfl
  refine ⟨by rw [hw], by rw [hw], by rw [hw], h24, ?_, ?_, ?_⟩
  · rw [h24]
    decide
  · rw [h24]
    exact List.chain'_pair.mpr (by norm_num)
  · intro k
    simp [waitExponential]

def envUC4 : Nat → UploadResp := fun k =>
  if k ≤ 2 then UploadResp.resp 500 "" else UploadResp.resp 200 "f1"

/-- Witness for claim C4 at a concrete run failing with HTTP 500 on attempts
1 and 2 and succeeding on attempt 3. -/
theorem claim_C4_witness :
    (ingest_document "doc" envUC4).result =
      Except.ok ⟨"f1", "Success", none, none⟩ ∧
    (ingest_document "doc" envUC4).attempts = 3 ∧
    (ingest_document "doc" envUC4).waits =
      [waitExponential 1 2 10 1, waitExponential 1 2 10 2] ∧
    (ingest_document "doc" envUC4).waits = [2, 4] ∧
    (∀ w ∈ (ingest_document "doc" envUC4).waits, 2 ≤ w ∧ w ≤ 10) ∧
    List.Chain' (fun a b => a < b) (ingest_document "doc" envUC4).waits ∧
    (∀ k, waitExponential 1 2 10 k = max 2 (min 10 (1 * 2 ^ (k + 1 - 1)))) :=
  claim_C4_backoff "doc" envUC4 "500" "500" ⟨"f1", "Success", none, none⟩
    rfl rfl rfl

def envSEmptyC5 : Nat → StatusResp := fun _ => StatusResp.resp 200 0 []

def envSNon2xxC5 : Nat → StatusResp := fun _ => StatusResp.resp 503 0 []

/-- Counterexample to claim C5 as stated: a response with an empty page is
not classified as a transient failure eligible for retry and is not treated
like a non-2xx status. With every attempt returning an empty page the call
performs exactly 1 attempt and surfaces AssertionError, which the retry
classifier rejects, while with every attempt returning HTTP 503 the call
performs 3 attempts. -/
theorem claim_C5_counterexample :
    (check_status_of_ingestion envSEmptyC5).attempts = 1 ∧
    (check_status_of_ingestion envSEmptyC5).result =
      Except.error PyErr.assertionError ∧
    PyErr.isRequestException PyErr.assertionError = false ∧
    (check_status_of_ingestion envSNon2xxC5).attempts = 3 :=
  ⟨rfl, rfl, rfl, rfl⟩

/-- Claim C5 as amended: for check_status_of_ingestion, an empty page
(total equal to 0) raises AssertionError, a permanent non-retryable failure
surfaced after exactly 1 attempt; a non-2xx HTTP status is a transient
failure retried up to 3 attempts; on success (total positive) the first run
of the page is returned. -/
theorem claim_C5_status_classification (envS : Nat → StatusResp) :
    (∀ rs, envS 1 = StatusResp.resp 200 0 rs →
      check_status_of_ingestion envS =
        ⟨Except.error PyErr.assertionError, 1, []⟩) ∧
    ((∀ k, ∃ m, check_status_of_ingestion_once (envS k) =
        Except.error (PyErr.requestException m)) →
      (check_status_of_ingestion envS).attempts = 3 ∧
      ∃ m, (check_status_of_ingestion envS).result =
        Except.error (PyErr.retryError (PyErr.requestException m))) ∧
    (∀ total rn rest, envS 1 = StatusResp.resp 200 total (rn :: rest) →
      0 < total →
      check_status_of_ingestion envS = ⟨Except.ok rn, 1, []⟩) := by
  refine ⟨?_, ?_, ?_⟩
  · intro rs h
    have honce : check_status_of_ingestion_once (envS 1) =
        Except.error PyErr.assertionError := by
      rw [h]
      rfl
    simp [check_status_of_ingestion, retryCall, honce, PyErr.isRequestException]
  · intro h
    obtain ⟨m1, hm1⟩ := h 1
    obtain ⟨m2, hm2⟩ := h 2
    obtain ⟨m3, hm3⟩ := h 3
    have hres : check_status_of_ingestion envS =
        ⟨Except.error (PyErr.retryError (PyErr.requestException m3)), 3,
          [waitExponential 1 2 10 1, waitExponential 1 2 10 2]⟩ := by
      simp [check_status_of_ingestion, retryCall, hm1, hm2, hm3,
        PyErr.isRequestException]
    rw [hres]
    exact ⟨rfl, m3, rfl⟩
  · intro total rn rest h hpos
    have honce : check_status_of_ingestion_once (envS 1) = Except.ok rn := by
      rw [h]
      simp [check_status_of_ingestion_once, hpos]
    simp [check_status_of_ingestion, retryCall, honce]

def runC5 : Run := ⟨"r", "completed", none, none⟩

def envSOkC5 : Nat → StatusResp := fun _ => StatusResp.resp 200 1 [runC5]

/-- Witness for the amended claim C5 at concrete environments: always-empty
page, always-503, and a one-run page. -/
theorem claim_C5_witness :
    check_status_of_ingestion envSEmptyC5 =
      ⟨Except.error PyErr.assertionError, 1, []⟩ ∧
    ((check_status_of_ingestion envSNon2xxC5).attempts = 3 ∧
      ∃ m, (check_status_of_ingestion envSNon2xxC5).result =
        Except.error (PyErr.retryError (PyErr.requestException m))) ∧
    check_status_of_ingestion envSOkC5 = ⟨Except.ok runC5, 1, []⟩ :=
  ⟨(claim_C5_status_classification envSEmptyC5).1 [] rfl,
    (claim_C5_status_classification envSNon2xxC5).2.1 (fun _ => ⟨"503", rfl⟩),
    (claim_C5_status_classification envSOkC5).2.2 1 runC5 [] rfl (by decide)⟩

/-- Claim C6: a permanent (non-retryable) failure — a missing local input
file in ingest_document, or the assertion of an expected page in
check_status_of_ingestion — is surfaced to the caller immediately after
exactly 1 attempt, with no retry; the last conjunct states this for any
operation whose first attempt raises a failure the classifier rejects. -/
theorem claim_C6_permanent_no_retry (path : String) (envU : Nat → UploadResp)
    (envS : Nat → StatusResp) (op : Nat → Except PyErr Run) :
    (envU 1 = UploadResp.noFile →
      ingest_document path envU =
        ⟨Except.error (PyErr.fileNotFound path), 1, []⟩) ∧
    (∀ rs, envS 1 = StatusResp.resp 200 0 rs →
      check_status_of_ingestion envS =
        ⟨Except.error PyErr.assertionError, 1, []⟩) ∧
    (∀ e, op 1 = Except.error e → PyErr.isRequestException e = false →
      retryCall PyErr.isRequestException op = ⟨Except.error e, 1, []⟩) := by
  refine ⟨?_, ?_, ?_⟩
  · intro h
    have honce : ingest_document_once path (envU 1) =
        Except.error (PyErr.fileNotFound path) := by
      rw [h]
      rfl
    simp [ingest_document, retryCall, honce, PyErr.isRequestException]
  · intro rs h
    have honce : check_status_of_ingestion_once (envS 1) =
        Except.error PyErr.assertionError := by
      rw [h]
      rfl
    simp [check_status_of_ingestion, retryCall, honce, PyErr.isRequestException]
  · intro e h hf
    simp [retryCall, h, hf]

def envUC6 : Nat → UploadResp := fun _ => UploadResp.noFile

def envSC6 : Nat → StatusResp := fun _ => StatusResp.resp 200 0 []

def opC6 : Nat → Except PyErr Run := fun _ => Except.error PyErr.assertionError

/-- Witness for claim C6 at concrete environments: a missing local file, an
always-empty page, and an operation raising a non-retryable failure. -/
theorem claim_C6_witness :
    ingest_document "missing.pdf" envUC6 =
      ⟨Except.error (PyErr.fileNotFound "missing.pdf"), 1, []⟩ ∧
    check_status_of_ingestion envSC6 =
      ⟨Except.error PyErr.assertionError, 1, []⟩ ∧
    retryCall PyErr.isRequestException opC6 =
      ⟨Except.error PyErr.assertionError, 1, []⟩ :=
  ⟨(claim_C6_permanent_no_retry "missing.pdf" envUC6 envSC6 opC6).1 rfl,
    (claim_C6_permanent_no_retry "missing.pdf" envUC6 envSC6 opC6).2.1 [] rfl,
    (claim_C6_permanent_no_retry "missing.pdf" envUC6 envSC6 opC6).2.2
      PyErr.assertionError rfl rfl⟩

def run1C7 : Run := ⟨"r1", "completed", some [("datasetId", "d1")], none⟩

def pollC7 : Option String → Except PyErr Run := fun fid =>
  if fid == some "id1" then Except.ok run1C7
  else Except.error (PyErr.requestException "502")

def dfC7 : List Phase1Row :=
  [⟨"files_to_upload/a.txt", some "id1", "Success", none, none, none⟩,
    ⟨"files_to_upload/b.txt", some "id2", "Success", none, none, none⟩,
    ⟨"files_to_upload/c.txt", none, "Ingestion Failed", none, none, some "boom"⟩]

/-- Claim C7: evaluation of check_files_status on a phase-1 report with two
Success rows (ids id1 and id2) and one Failure row, where the poll of id1
completes first with status completed and the poll of id2 then fails. The
poll targets are exactly the ids of get_successful_document_ids (first
conjunct); the merged report keeps every phase-1 row with left-join
semantics, and the row of the phase-1 Failure has a null status; but the row
of id2, whose phase-2 lookup failed, carries status completed copied from
the stale run of id1 instead of the null status the claim asserts. -/
theorem claim_C7_merge_semantics :
    get_successful_document_ids dfC7 = [some "id1", some "id2"] ∧
    check_files_status dfC7 pollC7 [some "id1", some "id2"] =
      Except.ok
        [⟨"files_to_upload/a.txt", some "id1", "Success", none, none, none,
            some "r1", some "completed", some [("datasetId", "d1")], none⟩,
          ⟨"files_to_upload/b.txt", some "id2", "Success", none, none, none,
            none, some "completed", none, some "502"⟩,
          ⟨"files_to_upload/c.txt", none, "Ingestion Failed", none, none,
            some "boom", none, none, none, none⟩] :=
  ⟨rfl, rfl⟩

def m0C8 : MergedRow :=
  ⟨"files_to_upload/a.txt", some "id1", "Success", none, none, none, some "r1",
    some "completed", some [("datasetId", "d1")], none⟩

def m1C8 : MergedRow :=
  ⟨"files_to_upload/b.txt", some "id2", "Success", none, none, none, some "r2",
    some "running", none, none⟩

def m2C8 : MergedRow :=
  ⟨"files_to_upload/c.txt", some "id3", "Success", none, none, none, some "r3",
    some "completed", some [("datasetId", "d2")], none⟩

/-- Claim C8: on a merged report whose rows are completed with dataset id d1,
running, completed with dataset id d2, selecting the completed rows keeps the
original index labels 0 and 2, and get_successful_dataset_ids then raises
KeyError on the label 1 instead of returning the dataset ids — refuting the
claim, whose example expects the list d1, d2. The last conjunct shows the
loop does return the dataset ids in row order when the filtered labels
happen to be contiguous (every row completed). -/
theorem claim_C8_dataset_ids :
    filterStatus (labeledRows [m0C8, m1C8, m2C8]) "completed" =
      [(0, m0C8), (2, m2C8)] ∧
    get_successful_dataset_ids
        (filterStatus (labeledRows [m0C8, m1C8, m2C8]) "completed") =
      Except.error (PyErr.keyError 1) ∧
    get_successful_dataset_ids
        (filterStatus (labeledRows [m0C8, m2C8]) "completed") =
      Except.ok [some "d1", some "d2"] :=
  ⟨rfl, rfl, rfl⟩

/-- Claim C10: createStoreId is a pure function of its arguments; with the
default namespace it returns the fixed namespace id, a hyphen, and the store
name, and with an explicit namespace it returns the namespace, a hyphen, and
the store name, concatenated in that order. -/
theorem claim_C10_createStoreId (storeName ns : String) :
    createStoreIdDefault storeName =
      "98215f16-4645-404f-8907-9469d95439e2-" ++ storeName ∧
    createStoreId storeName ns = ns ++ "-" ++ storeName := by
  constructor
  · show APPLICATION_STORES_NAMESPACE ++ "-" ++ storeName = _
    have h : APPLICATION_STORES_NAMESPACE ++ "-" =
        "98215f16-4645-404f-8907-9469d95439e2-" := by decide
    rw [h]
  · rfl
